import Mathlib

/-!
Shallow embedding of the rust-tracer ray tracer (src/vec_math.rs,
src/geometry.rs, src/main.rs).  f32 values are modelled as real numbers,
`f32::sqrt` as `Real.sqrt`, `i8` ids as integers, and `f32::MAX` as the
exact real value of that constant.  Division by zero follows Lean's
convention (x / 0 = 0).
-/

namespace RustTracer

/-- Embedding of `Vec3` from src/vec_math.rs. -/
structure Vec3 where
  x : ℝ
  y : ℝ
  z : ℝ

/-- Embedding of `Ray` from src/vec_math.rs. -/
structure Ray where
  start_pos : Vec3
  direction_vector : Vec3

/-- Embedding of `MaterialType` from src/geometry.rs. -/
inductive MaterialType where
  | Reflective
  | Glossy
  | Matte
deriving DecidableEq

/-- Embedding of `Material` from src/geometry.rs. -/
structure Material where
  color : Vec3
  t : MaterialType

/-- Embedding of `Sphere` from src/geometry.rs. -/
structure Sphere where
  center : Vec3
  radius : ℝ
  mat : Material
  id : ℤ

/-- Embedding of `Triangle` from src/geometry.rs. -/
structure Triangle where
  a : Vec3
  b : Vec3
  c : Vec3
  mat : Material
  id : ℤ

/-- Embedding of `RayHit` from src/geometry.rs. -/
structure RayHit where
  t : ℝ
  mat : Material
  intersect : Vec3
  surface_normal : Vec3
  id : ℤ

/-- Embedding of `mag` from src/vec_math.rs. -/
noncomputable def mag (a : Vec3) : ℝ :=
  Real.sqrt (a.x * a.x + a.y * a.y + a.z * a.z)

/-- Embedding of `norm` from src/vec_math.rs: componentwise division by the magnitude. -/
noncomputable def norm (a : Vec3) : Vec3 :=
  ⟨a.x / mag a, a.y / mag a, a.z / mag a⟩

/-- Embedding of `cross` from src/vec_math.rs. -/
def cross (a b : Vec3) : Vec3 :=
  ⟨a.y * b.z - a.z * b.y, -(a.x * b.z - a.z * b.x), a.x * b.y - a.y * b.x⟩

/-- Embedding of `vec` from src/vec_math.rs. -/
def vec (x y z : ℝ) : Vec3 := ⟨x, y, z⟩

/-- Embedding of `impl Add for Vec3` from src/vec_math.rs. -/
def vadd (a b : Vec3) : Vec3 := ⟨a.x + b.x, a.y + b.y, a.z + b.z⟩

/-- Embedding of `impl Sub for Vec3` from src/vec_math.rs. -/
def vsub (a b : Vec3) : Vec3 := ⟨a.x - b.x, a.y - b.y, a.z - b.z⟩

/-- Embedding of `impl Mul<f32> for Vec3` from src/vec_math.rs (scalar scale). -/
def smul (a : Vec3) (r : ℝ) : Vec3 := ⟨a.x * r, a.y * r, a.z * r⟩

/-- Embedding of `impl Mul for Vec3` from src/vec_math.rs (dot product). -/
def dot (a b : Vec3) : ℝ := a.x * b.x + a.y * b.y + a.z * b.z

/-- Exact real value of the Rust constant `f32::MAX`, the sentinel distance of a no-hit record. -/
def fMAX : ℝ := 2 ^ 128 - 2 ^ 104

/-- Embedding of `f32::clamp(x, lo, hi)`. -/
noncomputable def fclamp (x lo hi : ℝ) : ℝ := min hi (max lo x)

/-- Embedding of Rust's saturating float-to-`u8` cast `as u8`: negative values go
to 0, values at least 256 go to 255, and everything else truncates. -/
noncomputable def toU8 (x : ℝ) : ℤ :=
  if x < 0 then 0 else min 255 (Int.floor x)

/-- Embedding of the constant `NUL` material from src/main.rs. -/
def NUL : Material := ⟨⟨0, 0, 0⟩, MaterialType.Matte⟩

/-- Determinant `m` of the Cramer system in `triangle_hit` (src/geometry.rs lines 34-46). -/
def triM (tr : Triangle) (r : Ray) : ℝ :=
  let a := tr.a.x - tr.b.x
  let b := tr.a.y - tr.b.y
  let c := tr.a.z - tr.b.z
  let d := tr.a.x - tr.c.x
  let e := tr.a.y - tr.c.y
  let f := tr.a.z - tr.c.z
  let g := r.direction_vector.x
  let h := r.direction_vector.y
  let i := r.direction_vector.z
  a * (e * i - h * f) + b * (g * f - d * i) + c * (d * h - e * g)

/-- Ray parameter `t` computed by `triangle_hit` (src/geometry.rs line 47). -/
noncomputable def triT (tr : Triangle) (r : Ray) : ℝ :=
  let a := tr.a.x - tr.b.x
  let b := tr.a.y - tr.b.y
  let c := tr.a.z - tr.b.z
  let d := tr.a.x - tr.c.x
  let e := tr.a.y - tr.c.y
  let f := tr.a.z - tr.c.z
  let j := tr.a.x - r.start_pos.x
  let k := tr.a.y - r.start_pos.y
  let l := tr.a.z - r.start_pos.z
  Neg.neg (f * (a * k - j * b) + e * (j * c - a * l) + d * (b * l - k * c)) / triM tr r

/-- Barycentric coordinate `gamma` computed by `triangle_hit` (src/geometry.rs line 53). -/
noncomputable def triGamma (tr : Triangle) (r : Ray) : ℝ :=
  let a := tr.a.x - tr.b.x
  let b := tr.a.y - tr.b.y
  let c := tr.a.z - tr.b.z
  let g := r.direction_vector.x
  let h := r.direction_vector.y
  let i := r.direction_vector.z
  let j := tr.a.x - r.start_pos.x
  let k := tr.a.y - r.start_pos.y
  let l := tr.a.z - r.start_pos.z
  (i * (a * k - j * b) + h * (j * c - a * l) + g * (b * l - k * c)) / triM tr r

/-- Barycentric coordinate `beta` computed by `triangle_hit` (src/geometry.rs line 58). -/
noncomputable def triBeta (tr : Triangle) (r : Ray) : ℝ :=
  let d := tr.a.x - tr.c.x
  let e := tr.a.y - tr.c.y
  let f := tr.a.z - tr.c.z
  let g := r.direction_vector.x
  let h := r.direction_vector.y
  let i := r.direction_vector.z
  let j := tr.a.x - r.start_pos.x
  let k := tr.a.y - r.start_pos.y
  let l := tr.a.z - r.start_pos.z
  (j * (e * i - h * f) + k * (g * f - d * i) + l * (d * h - e * g)) / triM tr r

/-- Embedding of `triangle_hit` from src/geometry.rs: the barycentric Cramer test,
threading the current best hit `close` and returning it unchanged on rejection. -/
noncomputable def triangle_hit (tr : Triangle) (r : Ray) (close : RayHit) : RayHit :=
  let t := triT tr r
  if t < 0 ∨ t > close.t then close
  else
    let gamma := triGamma tr r
    if gamma < 0 ∨ gamma > 1 then close
    else
      let beta := triBeta tr r
      if beta < 0 ∨ beta > 1 - gamma then close
      else
        ⟨t, tr.mat, vadd r.start_pos (smul r.direction_vector t),
          norm (cross (vsub tr.b tr.a) (vsub tr.c tr.a)), tr.id⟩

/-- Discriminant computed by `sphere_intersect` (src/geometry.rs line 94). -/
def sDisc (s : Sphere) (r : Ray) : ℝ :=
  let emc := vsub r.start_pos s.center
  let ddd := dot r.direction_vector r.direction_vector
  let ddemc := dot r.direction_vector emc
  ddemc * ddemc - ddd * (dot emc emc - s.radius * s.radius)

/-- Root `t1` computed by `sphere_intersect` (src/geometry.rs line 100). -/
noncomputable def sT1 (s : Sphere) (r : Ray) : ℝ :=
  let emc := vsub r.start_pos s.center
  let ddd := dot r.direction_vector r.direction_vector
  let ddemc := dot r.direction_vector emc
  (-ddemc + Real.sqrt (sDisc s r)) / ddd

/-- Root `t2` computed by `sphere_intersect` (src/geometry.rs line 101). -/
noncomputable def sT2 (s : Sphere) (r : Ray) : ℝ :=
  let emc := vsub r.start_pos s.center
  let ddd := dot r.direction_vector r.direction_vector
  let ddemc := dot r.direction_vector emc
  (-ddemc - Real.sqrt (sDisc s r)) / ddd

/-- Embedding of `sphere_intersect` from src/geometry.rs: quadratic solve with the
sentinel `-1` for a negative discriminant and the source's root-selection branches. -/
noncomputable def sphere_intersect (s : Sphere) (r : Ray) : ℝ :=
  if sDisc s r < 0 then -1
  else
    let t1 := sT1 s r
    let t2 := sT2 s r
    if t1 < 0 then t2
    else if t2 < 0 then t1
    else min t1 t2

/-- Embedding of `sphere_hit` from src/geometry.rs. -/
noncomputable def sphere_hit (s : Sphere) (r : Ray) : RayHit :=
  let t_out := sphere_intersect s r
  let intersection := vadd r.start_pos (smul r.direction_vector t_out)
  ⟨t_out, s.mat, intersection, norm (vsub intersection s.center), s.id⟩

/-- Initial best-hit record of `find_closest_hit` (src/main.rs lines 47-53): the
sentinel no-hit record with `t = f32::MAX`, id `-2`, intersect and surface normal
set to the ray origin, and the neutral `NUL` material. -/
def initHit (ray : Ray) : RayHit :=
  ⟨fMAX, NUL, ray.start_pos, ray.start_pos, -2⟩

/-- Sphere pass of `find_closest_hit` (src/main.rs lines 55-60): scan the sphere
list, adopting a candidate hit when it is closer than the current best, strictly
in front of the origin, and not the excluded id. -/
noncomputable def sphereLoop (ray : Ray) (e : ℤ) : RayHit → List Sphere → RayHit
  | r, [] => r
  | r, s :: rest =>
    let temp := sphere_hit s ray
    sphereLoop ray e (if (temp.t < r.t ∧ temp.t > 0) ∧ temp.id ≠ e then temp else r) rest

/-- Triangle pass of `find_closest_hit` (src/main.rs lines 62-67): fold
`triangle_hit` over the triangle list, threading the current best record. -/
noncomputable def triLoop (ray : Ray) (e : ℤ) : RayHit → List Triangle → RayHit
  | r, [] => r
  | r, tr :: rest =>
    let temp := triangle_hit tr ray r
    triLoop ray e (if (temp.t < r.t ∧ temp.t > 0) ∧ temp.id ≠ e then temp else r) rest

/-- Embedding of `find_closest_hit` from src/main.rs. -/
noncomputable def find_closest_hit (ray : Ray) (e : ℤ) (spheres : List Sphere)
    (triangles : List Triangle) : RayHit :=
  triLoop ray e (sphereLoop ray e (initHit ray) spheres) triangles

/-- Whether some step of the sphere pass starting from best record `r` adopts a
candidate (all three adoption conditions hold at that step). -/
noncomputable def sphereAny (ray : Ray) (e : ℤ) : RayHit → List Sphere → Bool
  | _, [] => false
  | r, s :: rest =>
    let temp := sphere_hit s ray
    if (temp.t < r.t ∧ temp.t > 0) ∧ temp.id ≠ e then true
    else sphereAny ray e r rest

/-- Whether some step of the triangle pass starting from best record `r` adopts a
candidate (all three adoption conditions hold at that step). -/
noncomputable def triAny (ray : Ray) (e : ℤ) : RayHit → List Triangle → Bool
  | _, [] => false
  | r, tr :: rest =>
    let temp := triangle_hit tr ray r
    if (temp.t < r.t ∧ temp.t > 0) ∧ temp.id ≠ e then true
    else triAny ray e r rest

/-- Whether the closest-hit search adopts any candidate at all during its run. -/
noncomputable def anyAdopted (ray : Ray) (e : ℤ) (spheres : List Sphere)
    (triangles : List Triangle) : Bool :=
  sphereAny ray e (initHit ray) spheres ||
    triAny ray e (sphereLoop ray e (initHit ray) spheres) triangles

/-- Embedding of `diffuse_calc` from src/main.rs: Lambertian term with shadow test
and the fixed `0.2` ambient floor. -/
noncomputable def diffuse_calc (r : RayHit) (light : Vec3) (spheres : List Sphere)
    (triangles : List Triangle) : ℝ :=
  let to_light := vsub light r.intersect
  let to_light_norm := norm to_light
  let light_blocker := find_closest_hit ⟨r.intersect, to_light_norm⟩ r.id spheres triangles
  if light_blocker.t > 0 ∧ mag to_light > light_blocker.t then 0.2
  else fclamp (dot to_light_norm r.surface_normal) 0.2 1

/-- Embedding of `specular_calc` from src/main.rs: Phong-like term with the fixed
exponent 11, the shadow test, and clamping to the unit interval. -/
noncomputable def specular_calc (surface_norm light_pos pos : Vec3)
    (spheres : List Sphere) (triangles : List Triangle) (e : ℤ) : ℝ :=
  let light_dir_norm := norm (vsub light_pos pos)
  let reflect := vsub (smul surface_norm (dot surface_norm light_dir_norm * 2)) light_dir_norm
  let specular := (dot (norm reflect) (norm (smul pos (-1)))) ^ (11 : ℕ)
  let light_blocker := find_closest_hit ⟨pos, light_dir_norm⟩ e spheres triangles
  if light_blocker.t > 0 ∧ mag (vsub light_pos pos) > light_blocker.t then 0
  else fclamp specular 0 1

/-- Reflection loop of the per-pixel shader (src/main.rs lines 305-327), with the
iteration count `0..reflection_depth` as explicit fuel.  Returns the final ray,
the final hit record, and the `hit_space` flag. -/
noncomputable def reflect_loop (spheres : List Sphere) (triangles : List Triangle) :
    ℕ → Ray → RayHit → Ray × RayHit × Bool
  | 0, ray, hit => (ray, hit, false)
  | n + 1, ray, hit =>
    if hit.mat.t ≠ MaterialType.Reflective then (ray, hit, false)
    else
      let direction := norm (vadd
        (smul hit.surface_normal (-2 * dot ray.direction_vector hit.surface_normal))
        ray.direction_vector)
      let ray2 : Ray := ⟨hit.intersect, direction⟩
      let hit2 := find_closest_hit ray2 hit.id spheres triangles
      if hit2.t < 0 ∨ hit2.t = fMAX then (ray2, hit2, true)
      else reflect_loop spheres triangles n ray2 hit2

/-- Number of mirror bounces actually performed by `reflect_loop`: each loop body
execution that casts a new reflected ray counts as one bounce. -/
noncomputable def reflect_count (spheres : List Sphere) (triangles : List Triangle) :
    ℕ → Ray → RayHit → ℕ
  | 0, _, _ => 0
  | n + 1, ray, hit =>
    if hit.mat.t ≠ MaterialType.Reflective then 0
    else
      let direction := norm (vadd
        (smul hit.surface_normal (-2 * dot ray.direction_vector hit.surface_normal))
        ray.direction_vector)
      let ray2 : Ray := ⟨hit.intersect, direction⟩
      let hit2 := find_closest_hit ray2 hit.id spheres triangles
      if hit2.t < 0 ∨ hit2.t = fMAX then 1
      else 1 + reflect_count spheres triangles n ray2 hit2

/-- Matte shading of a hit (src/main.rs lines 283-287 and 330-333): each channel is
`color * diffuse * 255` cast to `u8`. -/
noncomputable def matteRGB (spheres : List Sphere) (triangles : List Triangle)
    (light : Vec3) (h : RayHit) : ℤ × ℤ × ℤ :=
  let diffuse := diffuse_calc h light spheres triangles
  (toU8 (h.mat.color.x * diffuse * 255),
   toU8 (h.mat.color.y * diffuse * 255),
   toU8 (h.mat.color.z * diffuse * 255))

/-- Glossy shading of a hit (src/main.rs lines 288-301): each channel is
`(color * diffuse + specular) * 255` cast to `u8`. -/
noncomputable def glossyRGB (spheres : List Sphere) (triangles : List Triangle)
    (light : Vec3) (h : RayHit) : ℤ × ℤ × ℤ :=
  let diffuse := diffuse_calc h light spheres triangles
  let specular := specular_calc h.surface_normal light h.intersect spheres triangles h.id
  (toU8 ((h.mat.color.x * diffuse + specular) * 255),
   toU8 ((h.mat.color.y * diffuse + specular) * 255),
   toU8 ((h.mat.color.z * diffuse + specular) * 255))

/-- Per-pixel shading of src/main.rs lines 272-337, given the primary ray of the
pixel: dispatch on the primary hit's material, with the reflective branch running
the bounded mirror loop and shading its final hit diffuse-only. -/
noncomputable def shade_pixel (spheres : List Sphere) (triangles : List Triangle)
    (light : Vec3) (depth : ℕ) (ray : Ray) : ℤ × ℤ × ℤ :=
  let ray_hit := find_closest_hit ray (-1) spheres triangles
  if ray_hit.t ≥ 0 ∧ ray_hit.t ≠ fMAX then
    if ray_hit.mat.t = MaterialType.Matte then matteRGB spheres triangles light ray_hit
    else if ray_hit.mat.t = MaterialType.Glossy then glossyRGB spheres triangles light ray_hit
    else
      let res := reflect_loop spheres triangles depth ray ray_hit
      if res.2.1.mat.t ≠ MaterialType.Reflective ∧ res.2.2 = false then
        matteRGB spheres triangles light res.2.1
      else (0, 0, 0)
  else (0, 0, 0)

/-- Reflective white material, as produced by scene loading for a `refl` line. -/
def matRefl : Material := ⟨⟨1, 1, 1⟩, MaterialType.Reflective⟩

/-- Glossy red material, as produced by scene loading for a `glossy` line. -/
def matGloss : Material := ⟨⟨1, 0, 0⟩, MaterialType.Glossy⟩

/-- Concrete reflective triangle in the plane `z = -1`, facing the camera. -/
def cTri1 : Triangle := ⟨⟨-1, -1, -1⟩, ⟨1, -1, -1⟩, ⟨0, 1, -1⟩, matRefl, 1⟩

/-- Concrete glossy triangle in the plane `z = 2`, behind the camera. -/
def cTri2 : Triangle := ⟨⟨-1, -1, 2⟩, ⟨1, -1, 2⟩, ⟨0, 1, 2⟩, matGloss, 2⟩

/-- Concrete light position for the two-triangle scene. -/
def cLight : Vec3 := ⟨3, 0, -2⟩

/-- Concrete primary ray from the origin down the optical axis. -/
def cRay : Ray := ⟨⟨0, 0, 0⟩, ⟨0, 0, -1⟩⟩

/-- Mirror-reflected ray produced by the first bounce of `cRay` off `cTri1`. -/
def cRay2 : Ray := ⟨⟨0, 0, -1⟩, ⟨0, 0, 1⟩⟩

/-- Shadow ray from the glossy hit point toward `cLight`. -/
noncomputable def cRayS : Ray := ⟨⟨0, 0, 2⟩, ⟨3 / 5, 0, -4 / 5⟩⟩

/-- Hit record of `cRay` on `cTri1`. -/
def cHit1 : RayHit := ⟨1, matRefl, ⟨0, 0, -1⟩, ⟨0, 0, 1⟩, 1⟩

/-- Hit record of `cRay2` on `cTri2`. -/
def cHit2 : RayHit := ⟨3, matGloss, ⟨0, 0, 2⟩, ⟨0, 0, 1⟩, 2⟩

/-- Concrete triangle for the normal-orientation counterexample. -/
def c1T : Triangle := ⟨⟨0, 0, 0⟩, ⟨1, 0, 0⟩, ⟨0, 1, 0⟩, NUL, 1⟩

/-- Concrete ray through the interior of `c1T`. -/
noncomputable def c1R : Ray := ⟨⟨1 / 4, 1 / 4, 1⟩, ⟨0, 0, -1⟩⟩

/-- Unit sphere at the origin used by concrete witnesses. -/
def w3s : Sphere := ⟨⟨0, 0, 0⟩, 1, NUL, 1⟩

/-- Ray from `(0,0,3)` toward the unit sphere at the origin. -/
def w3r : Ray := ⟨⟨0, 0, 3⟩, ⟨0, 0, -1⟩⟩

/-- Concrete hit record used by the diffuse witness. -/
def r5 : RayHit := ⟨1, NUL, ⟨0, 0, 0⟩, ⟨0, 0, 1⟩, 1⟩

/-- Concrete light used by the diffuse witness. -/
def light5 : Vec3 := ⟨0, 0, 5⟩

/-- Concrete surface normal used by the specular witness. -/
def n6 : Vec3 := ⟨0, 0, 1⟩

/-- Concrete light used by the specular witness. -/
def light6 : Vec3 := ⟨0, 0, 2⟩

/-- Concrete hit position used by the specular witness. -/
def pos6 : Vec3 := ⟨0, 0, -1⟩

section Theorems

/-- Square roots of concrete perfect squares. -/
lemma sqrt_num {a b : ℝ} (ha : 0 ≤ a) (h : b = a ^ 2) : Real.sqrt b = a := by
  rw [h, Real.sqrt_sq ha]

/-- Squared magnitude of a direction vector is non-negative. -/
lemma dot_self_nonneg (v : Vec3) : 0 ≤ dot v v := by
  have hx := mul_self_nonneg v.x
  have hy := mul_self_nonneg v.y
  have hz := mul_self_nonneg v.z
  simp only [dot]
  linarith

/-- The root `t2` never exceeds the root `t1`. -/
lemma sT2_le_sT1 (s : Sphere) (r : Ray) : sT2 s r ≤ sT1 s r := by
  simp only [sT1, sT2]
  exact div_le_div_of_nonneg_right
    (by linarith [Real.sqrt_nonneg (sDisc s r)])
    (dot_self_nonneg r.direction_vector)

/-- C3 (confirmed): `sphere_intersect` returns the sentinel `-1` exactly on a
negative discriminant, and otherwise selects among the two quadratic roots: the
non-negative one when exactly one root is negative, the smaller root when both
are negative, and `min t1 t2` when both are non-negative. -/
theorem sphere_intersect_selection (s : Sphere) (r : Ray) :
    (sDisc s r < 0 → sphere_intersect s r = -1) ∧
    (0 ≤ sDisc s r →
      ((sT1 s r < 0 ∧ 0 ≤ sT2 s r) → sphere_intersect s r = sT2 s r) ∧
      ((0 ≤ sT1 s r ∧ sT2 s r < 0) → sphere_intersect s r = sT1 s r) ∧
      ((sT1 s r < 0 ∧ sT2 s r < 0) → sphere_intersect s r = min (sT1 s r) (sT2 s r)) ∧
      ((0 ≤ sT1 s r ∧ 0 ≤ sT2 s r) → sphere_intersect s r = min (sT1 s r) (sT2 s r))) := by
  constructor
  · intro h
    simp only [sphere_intersect, if_pos h]
  · intro hd
    have hnlt : ¬ sDisc s r < 0 := not_lt.mpr hd
    have hle := sT2_le_sT1 s r
    refine ⟨?_, ?_, ?_, ?_⟩
    · rintro ⟨h1, _⟩
      simp only [sphere_intersect, if_neg hnlt, if_pos h1]
    · rintro ⟨h1, h2⟩
      simp only [sphere_intersect, if_neg hnlt, if_neg (not_lt.mpr h1), if_pos h2]
    · rintro ⟨h1, _⟩
      simp only [sphere_intersect, if_neg hnlt, if_pos h1]
      exact (min_eq_right hle).symm
    · rintro ⟨h1, h2⟩
      simp only [sphere_intersect, if_neg hnlt, if_neg (not_lt.mpr h1),
        if_neg (not_lt.mpr h2)]

/-- Discriminant of the witness sphere and ray. -/
lemma sDisc_w3 : sDisc w3s w3r = 1 := by
  simp only [sDisc, w3s, w3r, dot, vsub]
  norm_num

/-- First root of the witness sphere and ray. -/
lemma sT1_w3 : sT1 w3s w3r = 4 := by
  simp only [sT1]
  rw [sDisc_w3, Real.sqrt_one]
  simp only [w3s, w3r, dot, vsub]
  norm_num

/-- Second root of the witness sphere and ray. -/
lemma sT2_w3 : sT2 w3s w3r = 2 := by
  simp only [sT2]
  rw [sDisc_w3, Real.sqrt_one]
  simp only [w3s, w3r, dot, vsub]
  norm_num

/-- Witness for C3: on a concrete sphere and ray with both roots non-negative,
the intersection distance is the smaller root. -/
theorem sphere_intersect_selection_witness :
    0 ≤ sDisc w3s w3r ∧ 0 ≤ sT1 w3s w3r ∧ 0 ≤ sT2 w3s w3r ∧
      sphere_intersect w3s w3r = min (sT1 w3s w3r) (sT2 w3s w3r) := by
  have hd : (0 : ℝ) ≤ sDisc w3s w3r := by rw [sDisc_w3]; norm_num
  have h1 : (0 : ℝ) ≤ sT1 w3s w3r := by rw [sT1_w3]; norm_num
  have h2 : (0 : ℝ) ≤ sT2 w3s w3r := by rw [sT2_w3]; norm_num
  exact ⟨hd, h1, h2, (((sphere_intersect_selection w3s w3r).2 hd).2.2.2) ⟨h1, h2⟩⟩

/-- C10 (confirmed): `triangle_hit` either returns the current best record
unchanged, or returns a hit at parameter `t` with `0 ≤ t ≤ close.t` whose
barycentric weights satisfy `gamma ∈ [0,1]` and `beta ∈ [0, 1-gamma]`. -/
theorem triangle_hit_bounds (tr : Triangle) (r : Ray) (close : RayHit) :
    triangle_hit tr r close = close ∨
    ((triangle_hit tr r close).t = triT tr r ∧
      0 ≤ triT tr r ∧ triT tr r ≤ close.t ∧
      0 ≤ triGamma tr r ∧ triGamma tr r ≤ 1 ∧
      0 ≤ triBeta tr r ∧ triBeta tr r ≤ 1 - triGamma tr r) := by
  simp only [triangle_hit]
  by_cases h1 : triT tr r < 0 ∨ triT tr r > close.t
  · left
    rw [if_pos h1]
  · by_cases h2 : triGamma tr r < 0 ∨ triGamma tr r > 1
    · left
      rw [if_neg h1, if_pos h2]
    · by_cases h3 : triBeta tr r < 0 ∨ triBeta tr r > 1 - triGamma tr r
      · left
        rw [if_neg h1, if_neg h2, if_pos h3]
      · right
        rw [if_neg h1, if_neg h2, if_neg h3]
        push_neg at h1 h2 h3
        exact ⟨rfl, h1.1, h1.2, h2.1, h2.2, h3.1, h3.2⟩

/-- C1 (amended): on acceptance, the surface normal of the returned triangle hit
is `normalize(cross(B-A, C-A))`, a fixed orientation independent of the ray. -/
theorem triangle_hit_normal (tr : Triangle) (r : Ray) (close : RayHit)
    (h1 : 0 ≤ triT tr r) (h2 : triT tr r ≤ close.t)
    (h3 : 0 ≤ triGamma tr r) (h4 : triGamma tr r ≤ 1)
    (h5 : 0 ≤ triBeta tr r) (h6 : triBeta tr r ≤ 1 - triGamma tr r) :
    (triangle_hit tr r close).surface_normal =
      norm (cross (vsub tr.b tr.a) (vsub tr.c tr.a)) := by
  have c1 : ¬(triT tr r < 0 ∨ triT tr r > close.t) := by
    push_neg
    exact ⟨h1, h2⟩
  have c2 : ¬(triGamma tr r < 0 ∨ triGamma tr r > 1) := by
    push_neg
    exact ⟨h3, h4⟩
  have c3 : ¬(triBeta tr r < 0 ∨ triBeta tr r > 1 - triGamma tr r) := by
    push_neg
    exact ⟨h5, h6⟩
  simp only [triangle_hit, if_neg c1, if_neg c2, if_neg c3]

/-- Parameter of the counterexample ray against the counterexample triangle. -/
lemma triT_c1 : triT c1T c1R = 1 := by
  simp only [triT, triM, c1T, c1R]
  norm_num

/-- Barycentric `gamma` of the counterexample ray. -/
lemma triGamma_c1 : triGamma c1T c1R = 1 / 4 := by
  simp only [triGamma, triM, c1T, c1R]
  norm_num

/-- Barycentric `beta` of the counterexample ray. -/
lemma triBeta_c1 : triBeta c1T c1R = 1 / 4 := by
  simp only [triBeta, triM, c1T, c1R]
  norm_num

/-- Counterexample for C1 as stated: a ray accepted by the triangle test whose
returned surface normal is `normalize(cross(B-A, C-A)) = (0,0,1)` and differs from
`normalize(cross(C-A, B-A)) = (0,0,-1)`. -/
theorem triangle_hit_normal_counterexample :
    0 ≤ triT c1T c1R ∧ triT c1T c1R ≤ (initHit c1R).t ∧
    0 ≤ triGamma c1T c1R ∧ triGamma c1T c1R ≤ 1 ∧
    0 ≤ triBeta c1T c1R ∧ triBeta c1T c1R ≤ 1 - triGamma c1T c1R ∧
    (triangle_hit c1T c1R (initHit c1R)).surface_normal ≠
      norm (cross (vsub c1T.c c1T.a) (vsub c1T.b c1T.a)) := by
  have hs : Real.sqrt ((0 : ℝ) * 0 + 0 * 0 + 1 * 1) = 1 := by
    norm_num [Real.sqrt_one]
  have hs2 : Real.sqrt ((0 : ℝ) * 0 + 0 * 0 + -1 * -1) = 1 := by
    norm_num [Real.sqrt_one]
  refine ⟨by rw [triT_c1]; norm_num,
    by rw [triT_c1]; norm_num [initHit, fMAX],
    by rw [triGamma_c1]; norm_num, by rw [triGamma_c1]; norm_num,
    by rw [triBeta_c1]; norm_num, by rw [triGamma_c1, triBeta_c1]; norm_num, ?_⟩
  have hhit : (triangle_hit c1T c1R (initHit c1R)).surface_normal =
      norm (cross (vsub c1T.b c1T.a) (vsub c1T.c c1T.a)) := by
    simp only [triangle_hit, triT_c1, triGamma_c1, triBeta_c1]
    rw [if_neg (by norm_num [initHit, fMAX]), if_neg (by norm_num), if_neg (by norm_num)]
  rw [hhit]
  simp only [c1T, cross, vsub, norm, mag]
  norm_num [hs, hs2, Vec3.mk.injEq]

/-- Witness for C1 (amended): the accepted counterexample ray indeed receives the
normal `normalize(cross(B-A, C-A))`. -/
theorem triangle_hit_normal_witness :
    0 ≤ triT c1T c1R ∧
    (triangle_hit c1T c1R (initHit c1R)).surface_normal =
      norm (cross (vsub c1T.b c1T.a) (vsub c1T.c c1T.a)) :=
  ⟨by rw [triT_c1]; norm_num,
    triangle_hit_normal c1T c1R (initHit c1R)
      (by rw [triT_c1]; norm_num)
      (by rw [triT_c1]; norm_num [initHit, fMAX])
      (by rw [triGamma_c1]; norm_num)
      (by rw [triGamma_c1]; norm_num)
      (by rw [triBeta_c1]; norm_num)
      (by rw [triGamma_c1, triBeta_c1]; norm_num)⟩

/-- The sphere pass never increases the best-hit distance. -/
lemma sphereLoop_t_le (ray : Ray) (e : ℤ) (l : List Sphere) :
    ∀ r : RayHit, (sphereLoop ray e r l).t ≤ r.t := by
  induction l with
  | nil =>
    intro r
    simp [sphereLoop]
  | cons s rest ih =>
    intro r
    simp only [sphereLoop]
    by_cases h : ((sphere_hit s ray).t < r.t ∧ (sphere_hit s ray).t > 0) ∧
        (sphere_hit s ray).id ≠ e
    · rw [if_pos h]
      exact (ih _).trans (le_of_lt h.1.1)
    · rw [if_neg h]
      exact ih r

/-- The triangle pass never increases the best-hit distance. -/
lemma triLoop_t_le (ray : Ray) (e : ℤ) (l : List Triangle) :
    ∀ r : RayHit, (triLoop ray e r l).t ≤ r.t := by
  induction l with
  | nil =>
    intro r
    simp [triLoop]
  | cons tr rest ih =>
    intro r
    simp only [triLoop]
    by_cases h : ((triangle_hit tr ray r).t < r.t ∧ (triangle_hit tr ray r).t > 0) ∧
        (triangle_hit tr ray r).id ≠ e
    · rw [if_pos h]
      exact (ih _).trans (le_of_lt h.1.1)
    · rw [if_neg h]
      exact ih r

/-- The sphere pass preserves the property of not carrying the excluded id. -/
lemma sphereLoop_id (ray : Ray) (e : ℤ) (l : List Sphere) :
    ∀ r : RayHit, r.id ≠ e → (sphereLoop ray e r l).id ≠ e := by
  induction l with
  | nil =>
    intro r hr
    simpa [sphereLoop] using hr
  | cons s rest ih =>
    intro r hr
    simp only [sphereLoop]
    by_cases h : ((sphere_hit s ray).t < r.t ∧ (sphere_hit s ray).t > 0) ∧
        (sphere_hit s ray).id ≠ e
    · rw [if_pos h]
      exact ih _ h.2
    · rw [if_neg h]
      exact ih r hr

/-- The triangle pass preserves the property of not carrying the excluded id. -/
lemma triLoop_id (ray : Ray) (e : ℤ) (l : List Triangle) :
    ∀ r : RayHit, r.id ≠ e → (triLoop ray e r l).id ≠ e := by
  induction l with
  | nil =>
    intro r hr
    simpa [triLoop] using hr
  | cons tr rest ih =>
    intro r hr
    simp only [triLoop]
    by_cases h : ((triangle_hit tr ray r).t < r.t ∧ (triangle_hit tr ray r).t > 0) ∧
        (triangle_hit tr ray r).id ≠ e
    · rw [if_pos h]
      exact ih _ h.2
    · rw [if_neg h]
      exact ih r hr

/-- Without any adoption, the sphere pass leaves the best record unchanged. -/
lemma sphereLoop_of_any_false (ray : Ray) (e : ℤ) (l : List Sphere) :
    ∀ r : RayHit, sphereAny ray e r l = false → sphereLoop ray e r l = r := by
  induction l with
  | nil =>
    intro r _
    simp [sphereLoop]
  | cons s rest ih =>
    intro r hany
    simp only [sphereAny] at hany
    simp only [sphereLoop]
    by_cases h : ((sphere_hit s ray).t < r.t ∧ (sphere_hit s ray).t > 0) ∧
        (sphere_hit s ray).id ≠ e
    · rw [if_pos h] at hany
      exact absurd hany (by simp)
    · rw [if_neg h] at hany
      rw [if_neg h]
      exact ih r hany

/-- Without any adoption, the triangle pass leaves the best record unchanged. -/
lemma triLoop_of_any_false (ray : Ray) (e : ℤ) (l : List Triangle) :
    ∀ r : RayHit, triAny ray e r l = false → triLoop ray e r l = r := by
  induction l with
  | nil =>
    intro r _
    simp [triLoop]
  | cons tr rest ih =>
    intro r hany
    simp only [triAny] at hany
    simp only [triLoop]
    by_cases h : ((triangle_hit tr ray r).t < r.t ∧ (triangle_hit tr ray r).t > 0) ∧
        (triangle_hit tr ray r).id ≠ e
    · rw [if_pos h] at hany
      exact absurd hany (by simp)
    · rw [if_neg h] at hany
      rw [if_neg h]
      exact ih r hany

/-- After an adoption in the sphere pass, the best-hit distance strictly drops. -/
lemma sphereLoop_of_any_true (ray : Ray) (e : ℤ) (l : List Sphere) :
    ∀ r : RayHit, sphereAny ray e r l = true → (sphereLoop ray e r l).t < r.t := by
  induction l with
  | nil =>
    intro r hany
    simp [sphereAny] at hany
  | cons s rest ih =>
    intro r hany
    simp only [sphereAny] at hany
    simp only [sphereLoop]
    by_cases h : ((sphere_hit s ray).t < r.t ∧ (sphere_hit s ray).t > 0) ∧
        (sphere_hit s ray).id ≠ e
    · rw [if_pos h]
      exact lt_of_le_of_lt (sphereLoop_t_le ray e rest _) h.1.1
    · rw [if_neg h] at hany
      rw [if_neg h]
      exact ih r hany

/-- After an adoption in the triangle pass, the best-hit distance strictly drops. -/
lemma triLoop_of_any_true (ray : Ray) (e : ℤ) (l : List Triangle) :
    ∀ r : RayHit, triAny ray e r l = true → (triLoop ray e r l).t < r.t := by
  induction l with
  | nil =>
    intro r hany
    simp [triAny] at hany
  | cons tr rest ih =>
    intro r hany
    simp only [triAny] at hany
    simp only [triLoop]
    by_cases h : ((triangle_hit tr ray r).t < r.t ∧ (triangle_hit tr ray r).t > 0) ∧
        (triangle_hit tr ray r).id ≠ e
    · rw [if_pos h]
      exact lt_of_le_of_lt (triLoop_t_le ray e rest _) h.1.1
    · rw [if_neg h] at hany
      rw [if_neg h]
      exact ih r hany

/-- The sphere pass is the left fold of its adoption step. -/
lemma sphereLoop_eq_foldl (ray : Ray) (e : ℤ) (l : List Sphere) :
    ∀ r : RayHit, sphereLoop ray e r l =
      List.foldl (fun best s =>
        if ((sphere_hit s ray).t < best.t ∧ (sphere_hit s ray).t > 0) ∧
            (sphere_hit s ray).id ≠ e then sphere_hit s ray else best) r l := by
  induction l with
  | nil =>
    intro r
    simp [sphereLoop]
  | cons s rest ih =>
    intro r
    simp only [sphereLoop, List.foldl]
    exact ih _

/-- The triangle pass is the left fold of its adoption step. -/
lemma triLoop_eq_foldl (ray : Ray) (e : ℤ) (l : List Triangle) :
    ∀ r : RayHit, triLoop ray e r l =
      List.foldl (fun best tr =>
        if ((triangle_hit tr ray best).t < best.t ∧ (triangle_hit tr ray best).t > 0) ∧
            (triangle_hit tr ray best).id ≠ e then triangle_hit tr ray best else best) r l := by
  induction l with
  | nil =>
    intro r
    simp [triLoop]
  | cons tr rest ih =>
    intro r
    simp only [triLoop, List.foldl]
    exact ih _

/-- C4 (confirmed): the closest-hit search starts from the sentinel record,
adopts a candidate hit exactly when its distance is strictly positive, strictly
below the current best, and its id differs from the excluded id, folds spheres
and then triangles through these conditions, and returns the sentinel exactly
when no candidate was ever adopted. -/
theorem find_closest_hit_spec (ray : Ray) (e : ℤ) (spheres : List Sphere)
    (tris : List Triangle) :
    ((initHit ray).t = fMAX ∧ (initHit ray).id = -2 ∧
      (initHit ray).intersect = ray.start_pos ∧
      (initHit ray).surface_normal = ray.start_pos ∧ (initHit ray).mat = NUL) ∧
    (∀ best s, ((sphere_hit s ray).t > 0 ∧ (sphere_hit s ray).t < best.t ∧
        (sphere_hit s ray).id ≠ e → sphereLoop ray e best [s] = sphere_hit s ray) ∧
      (¬((sphere_hit s ray).t > 0 ∧ (sphere_hit s ray).t < best.t ∧
        (sphere_hit s ray).id ≠ e) → sphereLoop ray e best [s] = best)) ∧
    (∀ best tr, ((triangle_hit tr ray best).t > 0 ∧ (triangle_hit tr ray best).t < best.t ∧
        (triangle_hit tr ray best).id ≠ e → triLoop ray e best [tr] = triangle_hit tr ray best) ∧
      (¬((triangle_hit tr ray best).t > 0 ∧ (triangle_hit tr ray best).t < best.t ∧
        (triangle_hit tr ray best).id ≠ e) → triLoop ray e best [tr] = best)) ∧
    (find_closest_hit ray e spheres tris =
      List.foldl (fun best tr =>
        if ((triangle_hit tr ray best).t < best.t ∧ (triangle_hit tr ray best).t > 0) ∧
            (triangle_hit tr ray best).id ≠ e then triangle_hit tr ray best else best)
        (List.foldl (fun best s =>
          if ((sphere_hit s ray).t < best.t ∧ (sphere_hit s ray).t > 0) ∧
              (sphere_hit s ray).id ≠ e then sphere_hit s ray else best)
          (initHit ray) spheres) tris) ∧
    (find_closest_hit ray e spheres tris = initHit ray ↔
      anyAdopted ray e spheres tris = false) := by
  refine ⟨⟨rfl, rfl, rfl, rfl, rfl⟩, ?_, ?_, ?_, ?_⟩
  · intro best s
    constructor
    · intro h
      simp only [sphereLoop, if_pos (show ((sphere_hit s ray).t < best.t ∧
        (sphere_hit s ray).t > 0) ∧ (sphere_hit s ray).id ≠ e from ⟨⟨h.2.1, h.1⟩, h.2.2⟩)]
    · intro h
      have h' : ¬(((sphere_hit s ray).t < best.t ∧ (sphere_hit s ray).t > 0) ∧
          (sphere_hit s ray).id ≠ e) := fun hc => h ⟨hc.1.2, hc.1.1, hc.2⟩
      simp only [sphereLoop, if_neg h']
  · intro best tr
    constructor
    · intro h
      simp only [triLoop, if_pos (show ((triangle_hit tr ray best).t < best.t ∧
        (triangle_hit tr ray best).t > 0) ∧ (triangle_hit tr ray best).id ≠ e from
        ⟨⟨h.2.1, h.1⟩, h.2.2⟩)]
    · intro h
      have h' : ¬(((triangle_hit tr ray best).t < best.t ∧ (triangle_hit tr ray best).t > 0) ∧
          (triangle_hit tr ray best).id ≠ e) := fun hc => h ⟨hc.1.2, hc.1.1, hc.2⟩
      simp only [triLoop, if_neg h']
  · rw [find_closest_hit, triLoop_eq_foldl, sphereLoop_eq_foldl]
  · constructor
    · intro h
      by_contra hne
      have htrue : anyAdopted ray e spheres tris = true := by
        cases hb : anyAdopted ray e spheres tris
        · exact absurd hb hne
        · rfl
      have hfin : (find_closest_hit ray e spheres tris).t = fMAX := by
        rw [h]
        rfl
      rcases Bool.or_eq_true_iff.mp (by rwa [anyAdopted] at htrue) with hs | ht
      · have h1 := sphereLoop_of_any_true ray e spheres _ hs
        have h2 := triLoop_t_le ray e tris (sphereLoop ray e (initHit ray) spheres)
        have : (find_closest_hit ray e spheres tris).t < fMAX := by
          rw [find_closest_hit]
          exact lt_of_le_of_lt h2 (by simpa [initHit] using h1)
        rw [hfin] at this
        exact absurd this (lt_irrefl fMAX)
      · have h1 := triLoop_of_any_true ray e tris _ ht
        have h2 := sphereLoop_t_le ray e spheres (initHit ray)
        have : (find_closest_hit ray e spheres tris).t < fMAX := by
          rw [find_closest_hit]
          exact lt_of_lt_of_le h1 (by simpa [initHit] using h2)
        rw [hfin] at this
        exact absurd this (lt_irrefl fMAX)
    · intro h
      rcases Bool.or_eq_false_iff.mp (by rwa [anyAdopted] at h) with ⟨hs, ht⟩
      have h1 := sphereLoop_of_any_false ray e spheres _ hs
      rw [h1] at ht
      have h2 := triLoop_of_any_false ray e tris _ ht
      rw [find_closest_hit, h1, h2]

/-- Intersection distance for the witness sphere and ray. -/
lemma sphere_intersect_w3 : sphere_intersect w3s w3r = 2 := by
  have hd : ¬ sDisc w3s w3r < 0 := by
    rw [sDisc_w3]
    norm_num
  simp only [sphere_intersect, if_neg hd, sT1_w3, sT2_w3]
  rw [if_neg (by norm_num), if_neg (by norm_num), min_eq_right (by norm_num : (2:ℝ) ≤ 4)]

/-- Witness for C4: a concrete adoption through the sphere step, and the sentinel
returned on the empty scene. -/
theorem find_closest_hit_spec_witness :
    sphereLoop w3r (-1) (initHit w3r) [w3s] = sphere_hit w3s w3r ∧
      find_closest_hit w3r (-1) [] [] = initHit w3r := by
  constructor
  · refine ((find_closest_hit_spec w3r (-1) [w3s] []).2.1 (initHit w3r) w3s).1 ⟨?_, ?_, ?_⟩
    · show (sphere_hit w3s w3r).t > 0
      have : (sphere_hit w3s w3r).t = 2 := by
        simp only [sphere_hit, sphere_intersect_w3]
      rw [this]
      norm_num
    · show (sphere_hit w3s w3r).t < (initHit w3r).t
      have : (sphere_hit w3s w3r).t = 2 := by
        simp only [sphere_hit, sphere_intersect_w3]
      rw [this]
      simp only [initHit, fMAX]
      norm_num
    · show (sphere_hit w3s w3r).id ≠ -1
      simp [sphere_hit, w3s]
  · exact ((find_closest_hit_spec w3r (-1) [] []).2.2.2.2).mpr
      (by simp [anyAdopted, sphereAny, triAny, sphereLoop])

/-- C8 (confirmed): for any excluded id other than the sentinel `-2`, the
closest-hit search never returns a record carrying the excluded id. -/
theorem find_closest_hit_ne_excluded (ray : Ray) (e : ℤ) (spheres : List Sphere)
    (tris : List Triangle) (h : e ≠ -2) :
    (find_closest_hit ray e spheres tris).id ≠ e := by
  have h0 : (initHit ray).id ≠ e := by
    simp only [initHit]
    exact fun hc => h hc.symm
  exact triLoop_id ray e tris _ (sphereLoop_id ray e spheres _ h0)

/-- Witness for C8: with excluded id `-1` and an empty scene, the returned id is
the sentinel `-2`, not `-1`. -/
theorem find_closest_hit_ne_excluded_witness :
    (-1 : ℤ) ≠ -2 ∧ (find_closest_hit w3r (-1) [] []).id ≠ -1 :=
  ⟨by decide, find_closest_hit_ne_excluded w3r (-1) [] [] (by decide)⟩

/-- C5 (confirmed): the diffuse term is the fixed ambient floor `0.2` when the
shadow ray (cast with the hit's own id excluded) finds a blocker with positive
distance strictly closer than the light, and otherwise is the Lambertian cosine
`dot(normalize(to_light), surface_normal)` clamped to `[0.2, 1]`. -/
theorem diffuse_calc_spec (r : RayHit) (light : Vec3) (spheres : List Sphere)
    (tris : List Triangle) :
    (((find_closest_hit ⟨r.intersect, norm (vsub light r.intersect)⟩ r.id spheres tris).t > 0 ∧
        mag (vsub light r.intersect) >
          (find_closest_hit ⟨r.intersect, norm (vsub light r.intersect)⟩ r.id spheres tris).t) →
      diffuse_calc r light spheres tris = 0.2) ∧
    (¬((find_closest_hit ⟨r.intersect, norm (vsub light r.intersect)⟩ r.id spheres tris).t > 0 ∧
        mag (vsub light r.intersect) >
          (find_closest_hit ⟨r.intersect, norm (vsub light r.intersect)⟩ r.id spheres tris).t) →
      diffuse_calc r light spheres tris =
        fclamp (dot (norm (vsub light r.intersect)) r.surface_normal) 0.2 1) := by
  constructor
  · intro h
    simp only [diffuse_calc, if_pos h]
  · intro h
    simp only [diffuse_calc, if_neg h]

/-- Magnitude of the witness light offset. -/
lemma mag_w5 : mag (vsub light5 r5.intersect) = 5 := by
  have h25 : Real.sqrt 25 = 5 := sqrt_num (by norm_num) (by norm_num)
  simp only [mag, vsub, light5, r5]
  norm_num [h25]

/-- Normalized direction toward the witness light. -/
lemma norm_w5 : norm (vsub light5 r5.intersect) = ⟨0, 0, 1⟩ := by
  have h25 : Real.sqrt 25 = 5 := sqrt_num (by norm_num) (by norm_num)
  simp only [norm, mag, vsub, light5, r5]
  norm_num [h25, Vec3.mk.injEq]

/-- Witness for C5: with an empty scene nothing blocks the light, and the diffuse
term is the clamped cosine, here equal to `1`. -/
theorem diffuse_calc_spec_witness :
    ¬((find_closest_hit ⟨r5.intersect, norm (vsub light5 r5.intersect)⟩ r5.id [] []).t > 0 ∧
        mag (vsub light5 r5.intersect) >
          (find_closest_hit ⟨r5.intersect, norm (vsub light5 r5.intersect)⟩ r5.id [] []).t) ∧
      diffuse_calc r5 light5 [] [] = 1 := by
  have hb : (find_closest_hit ⟨r5.intersect, norm (vsub light5 r5.intersect)⟩ r5.id [] []).t =
      fMAX := rfl
  have hc : ¬((find_closest_hit ⟨r5.intersect, norm (vsub light5 r5.intersect)⟩ r5.id [] []).t > 0 ∧
      mag (vsub light5 r5.intersect) >
        (find_closest_hit ⟨r5.intersect, norm (vsub light5 r5.intersect)⟩ r5.id [] []).t) := by
    rw [hb, mag_w5]
    rintro ⟨-, h2⟩
    rw [fMAX] at h2
    norm_num at h2
  refine ⟨hc, ?_⟩
  rw [(diffuse_calc_spec r5 light5 [] []).2 hc, norm_w5]
  have hdot : dot (⟨0, 0, 1⟩ : Vec3) r5.surface_normal = 1 := by
    simp [dot, r5]
  rw [hdot, fclamp, max_eq_right (by norm_num : (0.2 : ℝ) ≤ 1), min_self]

/-- C6 (confirmed): the specular term is zero under the shadow test, and
otherwise equals the cosine between the mirror reflection of the light direction
about the surface normal and the view direction, raised to the power 11 and
clamped to `[0, 1]`. -/
theorem specular_calc_spec (n lp pos : Vec3) (spheres : List Sphere)
    (tris : List Triangle) (e : ℤ) :
    (((find_closest_hit ⟨pos, norm (vsub lp pos)⟩ e spheres tris).t > 0 ∧
        mag (vsub lp pos) > (find_closest_hit ⟨pos, norm (vsub lp pos)⟩ e spheres tris).t) →
      specular_calc n lp pos spheres tris e = 0) ∧
    (¬((find_closest_hit ⟨pos, norm (vsub lp pos)⟩ e spheres tris).t > 0 ∧
        mag (vsub lp pos) > (find_closest_hit ⟨pos, norm (vsub lp pos)⟩ e spheres tris).t) →
      specular_calc n lp pos spheres tris e =
        fclamp ((dot (norm (vsub (smul n (dot n (norm (vsub lp pos)) * 2)) (norm (vsub lp pos))))
          (norm (smul pos (-1)))) ^ (11 : ℕ)) 0 1) := by
  constructor
  · intro h
    simp only [specular_calc, if_pos h]
  · intro h
    simp only [specular_calc, if_neg h]

/-- Normalized direction toward the specular witness light. -/
lemma norm_w6 : norm (vsub light6 pos6) = ⟨0, 0, 1⟩ := by
  have h9 : Real.sqrt 9 = 3 := sqrt_num (by norm_num) (by norm_num)
  simp only [norm, mag, vsub, light6, pos6]
  norm_num [h9, Vec3.mk.injEq]

/-- Magnitude of the specular witness light offset. -/
lemma mag_w6 : mag (vsub light6 pos6) = 3 := by
  have h9 : Real.sqrt 9 = 3 := sqrt_num (by norm_num) (by norm_num)
  simp only [mag, vsub, light6, pos6]
  norm_num [h9]

/-- Witness for C6: with an empty scene the shadow test fails and the specular
term is the clamped eleventh power of the alignment cosine, here equal to `1`. -/
theorem specular_calc_spec_witness :
    ¬((find_closest_hit ⟨pos6, norm (vsub light6 pos6)⟩ 1 [] []).t > 0 ∧
        mag (vsub light6 pos6) > (find_closest_hit ⟨pos6, norm (vsub light6 pos6)⟩ 1 [] []).t) ∧
      specular_calc n6 light6 pos6 [] [] 1 = 1 := by
  have hb : (find_closest_hit ⟨pos6, norm (vsub light6 pos6)⟩ 1 [] []).t = fMAX := rfl
  have hc : ¬((find_closest_hit ⟨pos6, norm (vsub light6 pos6)⟩ 1 [] []).t > 0 ∧
      mag (vsub light6 pos6) > (find_closest_hit ⟨pos6, norm (vsub light6 pos6)⟩ 1 [] []).t) := by
    rw [hb, mag_w6]
    rintro ⟨-, h2⟩
    rw [fMAX] at h2
    norm_num at h2
  refine ⟨hc, ?_⟩
  rw [(specular_calc_spec n6 light6 pos6 [] [] 1).2 hc, norm_w6]
  have hrefl : vsub (smul n6 (dot n6 (⟨0, 0, 1⟩ : Vec3) * 2)) ⟨0, 0, 1⟩ = (⟨0, 0, 1⟩ : Vec3) := by
    simp only [vsub, smul, dot, n6]
    norm_num [Vec3.mk.injEq]
  rw [hrefl]
  have h1 : Real.sqrt ((0 : ℝ) * 0 + 0 * 0 + 1 * 1) = 1 := by
    norm_num [Real.sqrt_one]
  have hn1 : norm (⟨0, 0, 1⟩ : Vec3) = ⟨0, 0, 1⟩ := by
    simp only [norm, mag]
    norm_num [h1, Vec3.mk.injEq]
  have hpos : smul pos6 (-1) = (⟨0, 0, 1⟩ : Vec3) := by
    simp only [smul, pos6]
    norm_num [Vec3.mk.injEq]
  rw [hpos, hn1]
  have hdot : dot (⟨0, 0, 1⟩ : Vec3) (⟨0, 0, 1⟩ : Vec3) = 1 := by
    simp [dot]
  rw [hdot, one_pow, fclamp, max_eq_right (by norm_num : (0 : ℝ) ≤ 1), min_self]

/-- One unfolding step of the reflection loop at positive fuel. -/
lemma reflect_loop_succ (spheres : List Sphere) (tris : List Triangle) (n : ℕ)
    (ray : Ray) (hit : RayHit) :
    reflect_loop spheres tris (n + 1) ray hit =
      if hit.mat.t ≠ MaterialType.Reflective then (ray, hit, false)
      else
        let direction := norm (vadd
          (smul hit.surface_normal (-2 * dot ray.direction_vector hit.surface_normal))
          ray.direction_vector)
        let ray2 : Ray := ⟨hit.intersect, direction⟩
        let hit2 := find_closest_hit ray2 hit.id spheres tris
        if hit2.t < 0 ∨ hit2.t = fMAX then (ray2, hit2, true)
        else reflect_loop spheres tris n ray2 hit2 := rfl

/-- The bounce count never exceeds the fuel. -/
lemma reflect_count_le (spheres : List Sphere) (tris : List Triangle) :
    ∀ (n : ℕ) (ray : Ray) (hit : RayHit), reflect_count spheres tris n ray hit ≤ n := by
  intro n
  induction n with
  | zero =>
    intro ray hit
    simp [reflect_count]
  | succ n ih =>
    intro ray hit
    simp only [reflect_count]
    split
    · exact Nat.zero_le _
    · split
      · exact Nat.succ_le_succ (Nat.zero_le n)
      · exact le_trans (Nat.add_le_add_left (ih _ _) 1) (by omega)

/-- C7 (confirmed): when the primary hit is reflective, the mirror loop performs
at most `depth` bounces, and the pixel resolves either to black or to the
diffuse-shaded final non-reflective hit. -/
theorem reflection_bounded (spheres : List Sphere) (tris : List Triangle) (light : Vec3)
    (depth : ℕ) (ray : Ray)
    (h : (find_closest_hit ray (-1) spheres tris).mat.t = MaterialType.Reflective) :
    reflect_count spheres tris depth ray (find_closest_hit ray (-1) spheres tris) ≤ depth ∧
    (shade_pixel spheres tris light depth ray = (0, 0, 0) ∨
      ((reflect_loop spheres tris depth ray (find_closest_hit ray (-1) spheres tris)).2.1.mat.t ≠
          MaterialType.Reflective ∧
        shade_pixel spheres tris light depth ray =
          matteRGB spheres tris light
            (reflect_loop spheres tris depth ray (find_closest_hit ray (-1) spheres tris)).2.1)) := by
  refine ⟨reflect_count_le spheres tris depth ray _, ?_⟩
  simp only [shade_pixel]
  by_cases h0 : (find_closest_hit ray (-1) spheres tris).t ≥ 0 ∧
      (find_closest_hit ray (-1) spheres tris).t ≠ fMAX
  · rw [if_pos h0, if_neg (by rw [h]; decide), if_neg (by rw [h]; decide)]
    by_cases h1 : (reflect_loop spheres tris depth ray
        (find_closest_hit ray (-1) spheres tris)).2.1.mat.t ≠ MaterialType.Reflective ∧
        (reflect_loop spheres tris depth ray (find_closest_hit ray (-1) spheres tris)).2.2 = false
    · rw [if_pos h1]
      exact Or.inr ⟨h1.1, rfl⟩
    · rw [if_neg h1]
      exact Or.inl rfl
  · rw [if_neg h0]
    exact Or.inl rfl

/-- C9 (confirmed): a primary ray that hits nothing yields the sentinel record
with id `-2` and `t = f32::MAX`, and the pixel is rendered as black background;
no error is involved, the shader is a total function. -/
theorem no_hit_black (spheres : List Sphere) (tris : List Triangle) (light : Vec3)
    (depth : ℕ) (ray : Ray)
    (h : find_closest_hit ray (-1) spheres tris = initHit ray) :
    (find_closest_hit ray (-1) spheres tris).id = -2 ∧
    (find_closest_hit ray (-1) spheres tris).t = fMAX ∧
    shade_pixel spheres tris light depth ray = (0, 0, 0) := by
  refine ⟨by rw [h]; rfl, by rw [h]; rfl, ?_⟩
  simp only [shade_pixel, h]
  rw [if_neg (show ¬((initHit ray).t ≥ 0 ∧ (initHit ray).t ≠ fMAX) from fun hc => hc.2 rfl)]

/-- C2 (amended): for a pixel whose primary hit is reflective, the pixel is black
if the loop ends still reflective or escaped to empty space, and otherwise the
final non-reflective hit is shaded with the diffuse term only (no specular is
added, even when the final material is Glossy). -/
theorem reflective_shading (spheres : List Sphere) (tris : List Triangle) (light : Vec3)
    (depth : ℕ) (ray : Ray)
    (h0 : 0 ≤ (find_closest_hit ray (-1) spheres tris).t)
    (h1 : (find_closest_hit ray (-1) spheres tris).t ≠ fMAX)
    (h2 : (find_closest_hit ray (-1) spheres tris).mat.t = MaterialType.Reflective) :
    (((reflect_loop spheres tris depth ray (find_closest_hit ray (-1) spheres tris)).2.1.mat.t =
        MaterialType.Reflective ∨
      (reflect_loop spheres tris depth ray (find_closest_hit ray (-1) spheres tris)).2.2 = true) →
      shade_pixel spheres tris light depth ray = (0, 0, 0)) ∧
    (((reflect_loop spheres tris depth ray (find_closest_hit ray (-1) spheres tris)).2.1.mat.t ≠
        MaterialType.Reflective ∧
      (reflect_loop spheres tris depth ray (find_closest_hit ray (-1) spheres tris)).2.2 = false) →
      shade_pixel spheres tris light depth ray =
        matteRGB spheres tris light
          (reflect_loop spheres tris depth ray (find_closest_hit ray (-1) spheres tris)).2.1) := by
  constructor
  · intro hcase
    simp only [shade_pixel]
    rw [if_pos ⟨h0, h1⟩, if_neg (by rw [h2]; decide), if_neg (by rw [h2]; decide), if_neg ?_]
    rintro ⟨ha, hb⟩
    rcases hcase with hx | hx
    · exact ha hx
    · rw [hx] at hb
      exact Bool.noConfusion hb
  · intro hcase
    simp only [shade_pixel]
    rw [if_pos ⟨h0, h1⟩, if_neg (by rw [h2]; decide), if_neg (by rw [h2]; decide), if_pos hcase]

/-- Square root of 16. -/
lemma sqrt16 : Real.sqrt 16 = 4 := sqrt_num (by norm_num) (by norm_num)

/-- Square root of 25. -/
lemma sqrt25 : Real.sqrt 25 = 5 := sqrt_num (by norm_num) (by norm_num)

/-- Square root of 4. -/
lemma sqrt4 : Real.sqrt 4 = 2 := sqrt_num (by norm_num) (by norm_num)

/-- Empty sphere pass is the identity. -/
lemma sphereLoop_nil (ray : Ray) (e : ℤ) (r : RayHit) : sphereLoop ray e r [] = r := rfl

/-- Empty triangle pass is the identity. -/
lemma triLoop_nil (ray : Ray) (e : ℤ) (r : RayHit) : triLoop ray e r [] = r := rfl

/-- One step of the triangle pass. -/
lemma triLoop_cons (ray : Ray) (e : ℤ) (r : RayHit) (tr : Triangle) (rest : List Triangle) :
    triLoop ray e r (tr :: rest) =
      triLoop ray e
        (if ((triangle_hit tr ray r).t < r.t ∧ (triangle_hit tr ray r).t > 0) ∧
            (triangle_hit tr ray r).id ≠ e then triangle_hit tr ray r else r) rest := rfl

/-- Geometric normal shared by both concrete triangles. -/
lemma cross_cTri1 : cross (vsub cTri1.b cTri1.a) (vsub cTri1.c cTri1.a) = ⟨0, 0, 4⟩ := by
  simp only [cross, vsub, cTri1]
  norm_num [Vec3.mk.injEq]

/-- Geometric normal of the glossy triangle. -/
lemma cross_cTri2 : cross (vsub cTri2.b cTri2.a) (vsub cTri2.c cTri2.a) = ⟨0, 0, 4⟩ := by
  simp only [cross, vsub, cTri2]
  norm_num [Vec3.mk.injEq]

/-- Unit normal of both concrete triangles. -/
lemma norm_004 : norm (⟨0, 0, 4⟩ : Vec3) = ⟨0, 0, 1⟩ := by
  simp only [norm, mag]
  norm_num [sqrt16, Vec3.mk.injEq]

/-- Ray parameter of the primary ray against the reflective triangle. -/
lemma triT_11 : triT cTri1 cRay = 1 := by
  simp only [triT, triM, cTri1, cRay]
  norm_num

/-- Barycentric gamma of the primary ray against the reflective triangle. -/
lemma triGamma_11 : triGamma cTri1 cRay = 1 / 2 := by
  simp only [triGamma, triM, cTri1, cRay]
  norm_num

/-- Barycentric beta of the primary ray against the reflective triangle. -/
lemma triBeta_11 : triBeta cTri1 cRay = 1 / 4 := by
  simp only [triBeta, triM, cTri1, cRay]
  norm_num

/-- Ray parameter of the primary ray against the glossy triangle (behind the origin). -/
lemma triT_21 : triT cTri2 cRay = -2 := by
  simp only [triT, triM, cTri2, cRay]
  norm_num

/-- The primary ray hits the reflective triangle at distance 1. -/
lemma th_11 : triangle_hit cTri1 cRay (initHit cRay) = cHit1 := by
  simp only [triangle_hit, triT_11, triGamma_11, triBeta_11]
  rw [if_neg (by norm_num [initHit, fMAX]), if_neg (by norm_num), if_neg (by norm_num),
    cross_cTri1, norm_004]
  simp only [cHit1, cTri1, cRay, vadd, smul, matRefl, RayHit.mk.injEq, Vec3.mk.injEq]
  norm_num

/-- The primary ray rejects the glossy triangle (negative parameter). -/
lemma th_21 : triangle_hit cTri2 cRay cHit1 = cHit1 := by
  simp only [triangle_hit, triT_21]
  rw [if_pos (by norm_num)]

/-- Closest hit of the primary ray in the two-triangle scene. -/
lemma find_primary : find_closest_hit cRay (-1) [] [cTri1, cTri2] = cHit1 := by
  have hc1 : (cHit1.t < (initHit cRay).t ∧ cHit1.t > 0) ∧ cHit1.id ≠ (-1 : ℤ) := by
    refine ⟨⟨?_, ?_⟩, ?_⟩ <;> simp [cHit1, initHit, fMAX] <;> norm_num
  have hc2 : ¬((cHit1.t < cHit1.t ∧ cHit1.t > 0) ∧ cHit1.id ≠ (-1 : ℤ)) :=
    fun hh => lt_irrefl _ hh.1.1
  rw [find_closest_hit, sphereLoop_nil, triLoop_cons, th_11, if_pos hc1,
    triLoop_cons, th_21, if_neg hc2, triLoop_nil]

/-- Closest hit of the primary ray in the single-triangle scene. -/
lemma find_primary1 : find_closest_hit cRay (-1) [] [cTri1] = cHit1 := by
  have hc1 : (cHit1.t < (initHit cRay).t ∧ cHit1.t > 0) ∧ cHit1.id ≠ (-1 : ℤ) := by
    refine ⟨⟨?_, ?_⟩, ?_⟩ <;> simp [cHit1, initHit, fMAX] <;> norm_num
  rw [find_closest_hit, sphereLoop_nil, triLoop_cons, th_11, if_pos hc1, triLoop_nil]

/-- Normalizing the unit `z` vector is the identity. -/
lemma norm_001 : norm (⟨0, 0, 1⟩ : Vec3) = ⟨0, 0, 1⟩ := by
  simp only [norm, mag]
  norm_num [Real.sqrt_one, Vec3.mk.injEq]

/-- Ray parameter of the reflected ray against the reflective triangle. -/
lemma triT_12 : triT cTri1 cRay2 = 0 := by
  simp only [triT, triM, cTri1, cRay2]
  norm_num

/-- Barycentric gamma of the reflected ray against the reflective triangle. -/
lemma triGamma_12 : triGamma cTri1 cRay2 = 1 / 2 := by
  simp only [triGamma, triM, cTri1, cRay2]
  norm_num

/-- Barycentric beta of the reflected ray against the reflective triangle. -/
lemma triBeta_12 : triBeta cTri1 cRay2 = 1 / 4 := by
  simp only [triBeta, triM, cTri1, cRay2]
  norm_num

/-- The reflected ray grazes its own triangle at distance zero. -/
lemma th_12 : triangle_hit cTri1 cRay2 (initHit cRay2) =
    ⟨0, matRefl, ⟨0, 0, -1⟩, ⟨0, 0, 1⟩, 1⟩ := by
  simp only [triangle_hit, triT_12, triGamma_12, triBeta_12]
  rw [if_neg (by norm_num [initHit, fMAX]), if_neg (by norm_num), if_neg (by norm_num),
    cross_cTri1, norm_004]
  simp only [cTri1, cRay2, vadd, smul, matRefl, RayHit.mk.injEq, Vec3.mk.injEq]
  norm_num

/-- Ray parameter of the reflected ray against the glossy triangle. -/
lemma triT_22 : triT cTri2 cRay2 = 3 := by
  simp only [triT, triM, cTri2, cRay2]
  norm_num

/-- Barycentric gamma of the reflected ray against the glossy triangle. -/
lemma triGamma_22 : triGamma cTri2 cRay2 = 1 / 2 := by
  simp only [triGamma, triM, cTri2, cRay2]
  norm_num

/-- Barycentric beta of the reflected ray against the glossy triangle. -/
lemma triBeta_22 : triBeta cTri2 cRay2 = 1 / 4 := by
  simp only [triBeta, triM, cTri2, cRay2]
  norm_num

/-- The reflected ray hits the glossy triangle at distance 3. -/
lemma th_22 : triangle_hit cTri2 cRay2 (initHit cRay2) = cHit2 := by
  simp only [triangle_hit, triT_22, triGamma_22, triBeta_22]
  rw [if_neg (by norm_num [initHit, fMAX]), if_neg (by norm_num), if_neg (by norm_num),
    cross_cTri2, norm_004]
  simp only [cHit2, cTri2, cRay2, vadd, smul, matGloss, RayHit.mk.injEq, Vec3.mk.injEq]
  norm_num

/-- Closest hit of the reflected ray in the two-triangle scene: the zero-distance
graze of the reflective triangle is not adopted, the glossy hit is. -/
lemma find_re : find_closest_hit cRay2 1 [] [cTri1, cTri2] = cHit2 := by
  have hc1 : ¬((((⟨0, (matRefl : Material), ⟨0, 0, -1⟩, ⟨0, 0, 1⟩, 1⟩ : RayHit)).t <
      (initHit cRay2).t ∧ ((⟨0, matRefl, ⟨0, 0, -1⟩, ⟨0, 0, 1⟩, 1⟩ : RayHit)).t > 0) ∧
      ((⟨0, matRefl, ⟨0, 0, -1⟩, ⟨0, 0, 1⟩, 1⟩ : RayHit)).id ≠ (1 : ℤ)) :=
    fun hh => lt_irrefl _ hh.1.2
  have hc2 : (cHit2.t < (initHit cRay2).t ∧ cHit2.t > 0) ∧ cHit2.id ≠ (1 : ℤ) := by
    refine ⟨⟨?_, ?_⟩, ?_⟩ <;> simp [cHit2, initHit, fMAX] <;> norm_num
  rw [find_closest_hit, sphereLoop_nil, triLoop_cons, th_12, if_neg hc1,
    triLoop_cons, th_22, if_pos hc2, triLoop_nil]

/-- Closest hit of the reflected ray in the single-triangle scene: nothing valid
is hit and the sentinel is returned. -/
lemma find_re1 : find_closest_hit cRay2 1 [] [cTri1] = initHit cRay2 := by
  have hc1 : ¬((((⟨0, (matRefl : Material), ⟨0, 0, -1⟩, ⟨0, 0, 1⟩, 1⟩ : RayHit)).t <
      (initHit cRay2).t ∧ ((⟨0, matRefl, ⟨0, 0, -1⟩, ⟨0, 0, 1⟩, 1⟩ : RayHit)).t > 0) ∧
      ((⟨0, matRefl, ⟨0, 0, -1⟩, ⟨0, 0, 1⟩, 1⟩ : RayHit)).id ≠ (1 : ℤ)) :=
    fun hh => lt_irrefl _ hh.1.2
  rw [find_closest_hit, sphereLoop_nil, triLoop_cons, th_12, if_neg hc1, triLoop_nil]

/-- Mirror direction of the primary ray at the reflective hit. -/
lemma dir_eval : norm (vadd
    (smul cHit1.surface_normal (-2 * dot cRay.direction_vector cHit1.surface_normal))
    cRay.direction_vector) = ⟨0, 0, 1⟩ := by
  have hv : vadd (smul cHit1.surface_normal
      (-2 * dot cRay.direction_vector cHit1.surface_normal)) cRay.direction_vector =
      (⟨0, 0, 1⟩ : Vec3) := by
    simp only [vadd, smul, dot, cHit1, cRay]
    norm_num [Vec3.mk.injEq]
  rw [hv, norm_001]

/-- The reflection loop on the two-triangle scene bounces once off the mirror and
resolves to the glossy hit without escaping. -/
lemma loop_main : reflect_loop [] [cTri1, cTri2] 10 cRay cHit1 = (cRay2, cHit2, false) := by
  rw [show (10 : ℕ) = 9 + 1 from rfl, reflect_loop_succ,
    if_neg (show ¬(cHit1.mat.t ≠ MaterialType.Reflective) from fun hh => hh rfl)]
  simp only [dir_eval, show cHit1.intersect = (⟨0, 0, -1⟩ : Vec3) from rfl,
    show cHit1.id = (1 : ℤ) from rfl,
    show (⟨(⟨0, 0, -1⟩ : Vec3), (⟨0, 0, 1⟩ : Vec3)⟩ : Ray) = cRay2 from rfl, find_re]
  rw [if_neg (show ¬(cHit2.t < 0 ∨ cHit2.t = fMAX) from by
    rintro (hh | hh)
    · exact absurd hh (by norm_num [cHit2])
    · rw [show cHit2.t = (3 : ℝ) from rfl, fMAX] at hh
      norm_num at hh)]
  rw [show (9 : ℕ) = 8 + 1 from rfl, reflect_loop_succ,
    if_pos (show cHit2.mat.t ≠ MaterialType.Reflective from fun hh => MaterialType.noConfusion hh)]

/-- The reflection loop on the single-triangle scene escapes to empty space. -/
lemma loop_esc : reflect_loop [] [cTri1] 10 cRay cHit1 = (cRay2, initHit cRay2, true) := by
  rw [show (10 : ℕ) = 9 + 1 from rfl, reflect_loop_succ,
    if_neg (show ¬(cHit1.mat.t ≠ MaterialType.Reflective) from fun hh => hh rfl)]
  simp only [dir_eval, show cHit1.intersect = (⟨0, 0, -1⟩ : Vec3) from rfl,
    show cHit1.id = (1 : ℤ) from rfl,
    show (⟨(⟨0, 0, -1⟩ : Vec3), (⟨0, 0, 1⟩ : Vec3)⟩ : Ray) = cRay2 from rfl, find_re1]
  rw [if_pos (show (initHit cRay2).t < 0 ∨ (initHit cRay2).t = fMAX from Or.inr rfl)]

/-- Ray parameter of the shadow ray against the reflective triangle. -/
lemma triT_1S : triT cTri1 cRayS = 15 / 4 := by
  simp only [triT, triM, cTri1, cRayS]
  norm_num

/-- Barycentric gamma of the shadow ray against the reflective triangle. -/
lemma triGamma_1S : triGamma cTri1 cRayS = 1 / 2 := by
  simp only [triGamma, triM, cTri1, cRayS]
  norm_num

/-- Barycentric beta of the shadow ray against the reflective triangle. -/
lemma triBeta_1S : triBeta cTri1 cRayS = 11 / 8 := by
  simp only [triBeta, triM, cTri1, cRayS]
  norm_num

/-- The shadow ray misses the reflective triangle (beta out of range). -/
lemma th_1S : triangle_hit cTri1 cRayS (initHit cRayS) = initHit cRayS := by
  simp only [triangle_hit, triT_1S, triGamma_1S, triBeta_1S]
  rw [if_neg (by norm_num [initHit, fMAX]), if_neg (by norm_num), if_pos (by norm_num)]

/-- Ray parameter of the shadow ray against the glossy triangle. -/
lemma triT_2S : triT cTri2 cRayS = 0 := by
  simp only [triT, triM, cTri2, cRayS]
  norm_num

/-- Barycentric gamma of the shadow ray against the glossy triangle. -/
lemma triGamma_2S : triGamma cTri2 cRayS = 1 / 2 := by
  simp only [triGamma, triM, cTri2, cRayS]
  norm_num

/-- Barycentric beta of the shadow ray against the glossy triangle. -/
lemma triBeta_2S : triBeta cTri2 cRayS = 1 / 4 := by
  simp only [triBeta, triM, cTri2, cRayS]
  norm_num

/-- The shadow ray grazes the glossy triangle at distance zero. -/
lemma th_2S : triangle_hit cTri2 cRayS (initHit cRayS) =
    ⟨0, matGloss, ⟨0, 0, 2⟩, ⟨0, 0, 1⟩, 2⟩ := by
  simp only [triangle_hit, triT_2S, triGamma_2S, triBeta_2S]
  rw [if_neg (by norm_num [initHit, fMAX]), if_neg (by norm_num), if_neg (by norm_num),
    cross_cTri2, norm_004]
  simp only [cTri2, cRayS, vadd, smul, matGloss, RayHit.mk.injEq, Vec3.mk.injEq]
  norm_num

/-- The shadow ray from the glossy hit point finds no valid blocker. -/
lemma find_shadow : find_closest_hit cRayS 2 [] [cTri1, cTri2] = initHit cRayS := by
  have hc1 : ¬(((initHit cRayS).t < (initHit cRayS).t ∧ (initHit cRayS).t > 0) ∧
      (initHit cRayS).id ≠ (2 : ℤ)) := fun hh => lt_irrefl _ hh.1.1
  have hc2 : ¬((((⟨0, (matGloss : Material), ⟨0, 0, 2⟩, ⟨0, 0, 1⟩, 2⟩ : RayHit)).t <
      (initHit cRayS).t ∧ ((⟨0, matGloss, ⟨0, 0, 2⟩, ⟨0, 0, 1⟩, 2⟩ : RayHit)).t > 0) ∧
      ((⟨0, matGloss, ⟨0, 0, 2⟩, ⟨0, 0, 1⟩, 2⟩ : RayHit)).id ≠ (2 : ℤ)) :=
    fun hh => lt_irrefl _ hh.1.2
  rw [find_closest_hit, sphereLoop_nil, triLoop_cons, th_1S, if_neg hc1,
    triLoop_cons, th_2S, if_neg hc2, triLoop_nil]

/-- Normalized direction from the glossy hit point to the light. -/
lemma normL : norm (vsub cLight (⟨0, 0, 2⟩ : Vec3)) = ⟨3 / 5, 0, -4 / 5⟩ := by
  simp only [norm, mag, vsub, cLight]
  norm_num [sqrt25, Vec3.mk.injEq]

/-- Distance from the glossy hit point to the light. -/
lemma magL : mag (vsub cLight (⟨0, 0, 2⟩ : Vec3)) = 5 := by
  simp only [mag, vsub, cLight]
  norm_num [sqrt25]

/-- The diffuse term at the glossy hit: the light is behind the surface, so the
clamped cosine bottoms out at the ambient floor. -/
lemma diffuse_c : diffuse_calc cHit2 cLight [] [cTri1, cTri2] = 0.2 := by
  simp only [diffuse_calc, normL, magL, show cHit2.intersect = (⟨0, 0, 2⟩ : Vec3) from rfl,
    show cHit2.id = (2 : ℤ) from rfl,
    show (⟨(⟨0, 0, 2⟩ : Vec3), (⟨3 / 5, 0, -4 / 5⟩ : Vec3)⟩ : Ray) = cRayS from rfl, find_shadow]
  rw [if_neg (show ¬((initHit cRayS).t > 0 ∧ 5 > (initHit cRayS).t) from by
    rintro ⟨-, hh⟩
    rw [show (initHit cRayS).t = fMAX from rfl, fMAX] at hh
    norm_num at hh)]
  have hdot : dot (⟨3 / 5, 0, -4 / 5⟩ : Vec3) cHit2.surface_normal = -4 / 5 := by
    simp only [dot, show cHit2.surface_normal = (⟨0, 0, 1⟩ : Vec3) from rfl]
    norm_num
  rw [hdot, fclamp, max_eq_left (by norm_num : (-4 / 5 : ℝ) ≤ 0.2),
    min_eq_right (by norm_num : (0.2 : ℝ) ≤ 1)]

/-- The specular term at the glossy hit: the mirrored light direction aligns with
the view direction with cosine `4/5`, nothing blocks the light. -/
lemma spec_c : specular_calc cHit2.surface_normal cLight cHit2.intersect [] [cTri1, cTri2] 2 =
    (4 / 5 : ℝ) ^ (11 : ℕ) := by
  have hrefl : vsub (smul cHit2.surface_normal
      (dot cHit2.surface_normal (⟨3 / 5, 0, -4 / 5⟩ : Vec3) * 2)) ⟨3 / 5, 0, -4 / 5⟩ =
      (⟨-3 / 5, 0, -4 / 5⟩ : Vec3) := by
    simp only [vsub, smul, dot, show cHit2.surface_normal = (⟨0, 0, 1⟩ : Vec3) from rfl]
    norm_num [Vec3.mk.injEq]
  have hnr : norm (⟨-3 / 5, 0, -4 / 5⟩ : Vec3) = ⟨-3 / 5, 0, -4 / 5⟩ := by
    simp only [norm, mag]
    norm_num [Real.sqrt_one, Vec3.mk.injEq]
  have hview : norm (smul (⟨0, 0, 2⟩ : Vec3) (-1)) = ⟨0, 0, -1⟩ := by
    simp only [smul, norm, mag]
    norm_num [sqrt4, Vec3.mk.injEq]
  have hdot : dot (⟨-3 / 5, 0, -4 / 5⟩ : Vec3) (⟨0, 0, -1⟩ : Vec3) = 4 / 5 := by
    simp only [dot]
    norm_num
  simp only [specular_calc, normL, magL, hrefl, hnr, hview, hdot,
    show cHit2.intersect = (⟨0, 0, 2⟩ : Vec3) from rfl,
    show (⟨(⟨0, 0, 2⟩ : Vec3), (⟨3 / 5, 0, -4 / 5⟩ : Vec3)⟩ : Ray) = cRayS from rfl, find_shadow]
  rw [if_neg (show ¬((initHit cRayS).t > 0 ∧ 5 > (initHit cRayS).t) from by
    rintro ⟨-, hh⟩
    rw [show (initHit cRayS).t = fMAX from rfl, fMAX] at hh
    norm_num at hh)]
  rw [fclamp, max_eq_right (by positivity : (0 : ℝ) ≤ (4 / 5 : ℝ) ^ (11 : ℕ)),
    min_eq_right (by norm_num : ((4 / 5 : ℝ) ^ (11 : ℕ)) ≤ 1)]

/-- Byte value of a concrete channel. -/
lemma toU8_eq {x : ℝ} {n : ℤ} (h0 : 0 ≤ x) (hn : (n : ℝ) ≤ x) (hn1 : x < n + 1)
    (h255 : n ≤ 255) : toU8 x = n := by
  rw [toU8, if_neg (not_lt.mpr h0), Int.floor_eq_iff.mpr ⟨hn, hn1⟩]
  exact min_eq_right h255

/-- Diffuse-only shading of the glossy hit, as the code computes it. -/
lemma matte_c : matteRGB [] [cTri1, cTri2] cLight cHit2 = (51, 0, 0) := by
  simp only [matteRGB, diffuse_c, show cHit2.mat = matGloss from rfl, matGloss]
  rw [show toU8 ((1 : ℝ) * 0.2 * 255) = 51 from
      toU8_eq (by norm_num) (by norm_num) (by norm_num) (by norm_num),
    show toU8 ((0 : ℝ) * 0.2 * 255) = 0 from
      toU8_eq (by norm_num) (by norm_num) (by norm_num) (by norm_num)]

/-- Diffuse-plus-specular shading of the glossy hit, as the specification
demands for a glossy final hit. -/
lemma glossy_c : glossyRGB [] [cTri1, cTri2] cLight cHit2 = (72, 21, 21) := by
  simp only [glossyRGB, diffuse_c, show cHit2.id = (2 : ℤ) from rfl, spec_c,
    show cHit2.mat = matGloss from rfl, matGloss]
  rw [show toU8 (((1 : ℝ) * 0.2 + (4 / 5 : ℝ) ^ (11 : ℕ)) * 255) = 72 from
      toU8_eq (by positivity) (by norm_num) (by norm_num) (by norm_num),
    show toU8 (((0 : ℝ) * 0.2 + (4 / 5 : ℝ) ^ (11 : ℕ)) * 255) = 21 from
      toU8_eq (by positivity) (by norm_num) (by norm_num) (by norm_num)]

/-- Pixel value of the concrete reflective-to-glossy pixel: the code shades the
final glossy hit with the diffuse term only. -/
lemma shade_main : shade_pixel [] [cTri1, cTri2] cLight 10 cRay = (51, 0, 0) := by
  simp only [shade_pixel, find_primary]
  rw [if_pos (show cHit1.t ≥ 0 ∧ cHit1.t ≠ fMAX from
      ⟨by norm_num [cHit1], by rw [show cHit1.t = (1 : ℝ) from rfl, fMAX]; norm_num⟩),
    if_neg (show ¬(cHit1.mat.t = MaterialType.Matte) from fun hh => MaterialType.noConfusion hh),
    if_neg (show ¬(cHit1.mat.t = MaterialType.Glossy) from fun hh => MaterialType.noConfusion hh),
    if_pos (show (reflect_loop [] [cTri1, cTri2] 10 cRay cHit1).2.1.mat.t ≠
        MaterialType.Reflective ∧ (reflect_loop [] [cTri1, cTri2] 10 cRay cHit1).2.2 = false from by
      rw [loop_main]
      exact ⟨fun hh => MaterialType.noConfusion hh, rfl⟩),
    loop_main]
  exact matte_c

/-- Counterexample for C2 as stated: a pixel whose primary hit is reflective, whose
reflection loop resolves (without escaping) to a glossy hit, and whose rendered
value is not the diffuse-plus-specular (glossy) shading the claim demands: the
code produces `(51,0,0)` while glossy shading would give `(72,21,21)`. -/
theorem reflective_glossy_no_specular :
    (find_closest_hit cRay (-1) [] [cTri1, cTri2]).mat.t = MaterialType.Reflective ∧
    (reflect_loop [] [cTri1, cTri2] 10 cRay
      (find_closest_hit cRay (-1) [] [cTri1, cTri2])).2.1.mat.t = MaterialType.Glossy ∧
    (reflect_loop [] [cTri1, cTri2] 10 cRay
      (find_closest_hit cRay (-1) [] [cTri1, cTri2])).2.2 = false ∧
    shade_pixel [] [cTri1, cTri2] cLight 10 cRay ≠
      glossyRGB [] [cTri1, cTri2] cLight
        (reflect_loop [] [cTri1, cTri2] 10 cRay
          (find_closest_hit cRay (-1) [] [cTri1, cTri2])).2.1 := by
  refine ⟨by rw [find_primary]; rfl, by rw [find_primary, loop_main]; rfl,
    by rw [find_primary, loop_main], ?_⟩
  rw [shade_main, find_primary, loop_main,
    show ((cRay2, cHit2, false) : Ray × RayHit × Bool).2.1 = cHit2 from rfl, glossy_c]
  decide

/-- Witness for C2 (amended): on the concrete two-triangle scene the reflective
pixel resolves to a non-reflective hit and is shaded diffuse-only. -/
theorem reflective_shading_witness :
    0 ≤ (find_closest_hit cRay (-1) [] [cTri1, cTri2]).t ∧
    (find_closest_hit cRay (-1) [] [cTri1, cTri2]).t ≠ fMAX ∧
    (find_closest_hit cRay (-1) [] [cTri1, cTri2]).mat.t = MaterialType.Reflective ∧
    shade_pixel [] [cTri1, cTri2] cLight 10 cRay =
      matteRGB [] [cTri1, cTri2] cLight
        (reflect_loop [] [cTri1, cTri2] 10 cRay
          (find_closest_hit cRay (-1) [] [cTri1, cTri2])).2.1 := by
  have h0 : 0 ≤ (find_closest_hit cRay (-1) [] [cTri1, cTri2]).t := by
    rw [find_primary]
    norm_num [cHit1]
  have h1 : (find_closest_hit cRay (-1) [] [cTri1, cTri2]).t ≠ fMAX := by
    rw [find_primary, show cHit1.t = (1 : ℝ) from rfl, fMAX]
    norm_num
  have h2 : (find_closest_hit cRay (-1) [] [cTri1, cTri2]).mat.t =
      MaterialType.Reflective := by
    rw [find_primary]
    rfl
  refine ⟨h0, h1, h2, (reflective_shading [] [cTri1, cTri2] cLight 10 cRay h0 h1 h2).2 ⟨?_, ?_⟩⟩
  · rw [find_primary, loop_main]
    exact fun hh => MaterialType.noConfusion hh
  · rw [find_primary, loop_main]

/-- Witness for C7: on the concrete single-mirror scene the reflective pixel's
loop is bounded by the depth and the pixel resolves to black or a shaded hit. -/
theorem reflection_bounded_witness :
    (find_closest_hit cRay (-1) [] [cTri1]).mat.t = MaterialType.Reflective ∧
    reflect_count [] [cTri1] 10 cRay (find_closest_hit cRay (-1) [] [cTri1]) ≤ 10 ∧
    (shade_pixel [] [cTri1] cLight 10 cRay = (0, 0, 0) ∨
      ((reflect_loop [] [cTri1] 10 cRay (find_closest_hit cRay (-1) [] [cTri1])).2.1.mat.t ≠
          MaterialType.Reflective ∧
        shade_pixel [] [cTri1] cLight 10 cRay =
          matteRGB [] [cTri1] cLight
            (reflect_loop [] [cTri1] 10 cRay
              (find_closest_hit cRay (-1) [] [cTri1])).2.1)) := by
  have h : (find_closest_hit cRay (-1) [] [cTri1]).mat.t = MaterialType.Reflective := by
    rw [find_primary1]
    rfl
  exact ⟨h, (reflection_bounded [] [cTri1] cLight 10 cRay h).1,
    (reflection_bounded [] [cTri1] cLight 10 cRay h).2⟩

/-- Witness for C9: on an empty scene the primary ray hits nothing and the pixel
is black. -/
theorem no_hit_black_witness :
    find_closest_hit cRay (-1) [] [] = initHit cRay ∧
      shade_pixel [] [] cLight 10 cRay = (0, 0, 0) :=
  ⟨rfl, (no_hit_black [] [] cLight 10 cRay rfl).2.2⟩

end Theorems

end RustTracer
